import Mathlib

/-!
# Verification of the VDM MCU framing protocol (`src/protocol.h`)

Shallow embedding of the frame codec from `protocol.h`: the CRC-16/MODBUS
checksum engine, the big-endian byte codecs, the sequence-number generator,
the frame encoder `build_frame` together with its convenience constructors,
and the frame decoder `parse_frame`.

Modelling conventions:
* C byte buffers (`uint8_t *`) are `List Nat`; a pointer into a buffer is the
  pair of the list and an offset.  Reads use `List.getD · 0`, writes use
  `List.set` (a write beyond the buffer end is undefined behaviour in C; the
  model's `List.set` leaves the list unchanged there — no theorem below relies
  on the value of an out-of-bounds write).
* Machine integers are `Nat` with the masks of the source written as division
  and remainder: `x >> 8` on an unsigned value is `x / 2^8`, `x & 0xFF` is
  `x % 256`.  `uint8_t`/`uint16_t` parameter domains appear as `< 256` /
  `< 65536` hypotheses on theorems.
* C `float` values are represented by their 32-bit IEEE-754 bit pattern: both
  `float_to_be` and `be_to_float` only reinterpret the pattern, so the
  embedding carries the pattern itself (a `Nat < 2^32`).
* The process-global sequence counter `_seq_counter` is passed explicitly:
  every constructor that (in C) can see the global takes the counter value and
  returns the counter value left behind.
-/

namespace Protocol

/-! ## Constants (`protocol.h` lines 18-37) -/

@[simp] def FRAME_SYNC1 : Nat := 0xAA
@[simp] def FRAME_SYNC2 : Nat := 0x55
@[simp] def FRAME_VERSION : Nat := 0x10
@[simp] def FRAME_HEADER_SIZE : Nat := 9
@[simp] def FRAME_CRC_SIZE : Nat := 2
@[simp] def FRAME_MIN_SIZE : Nat := 11
@[simp] def FRAME_MAX_DATA_SIZE : Nat := 65535

@[simp] def TYPE_REQUEST : Nat := 0x00
@[simp] def TYPE_RESPONSE : Nat := 0x01
@[simp] def TYPE_NOTIFY : Nat := 0x02
@[simp] def TYPE_ACK : Nat := 0x03
@[simp] def TYPE_NACK : Nat := 0x04

@[simp] def CMD_MOTOR_ROTATE : Nat := 0x3001
@[simp] def CMD_MOTOR_ENABLE : Nat := 0x3002
@[simp] def CMD_MOTOR_DISABLE : Nat := 0x3003
@[simp] def CMD_MOTOR_GET_POS : Nat := 0x3006
@[simp] def CMD_SENSOR_READ_TEMP : Nat := 0x4001

/-! ## Decoded frame structure (`protocol_frame_t`, lines 152-160) -/

/-- `protocol_frame_t`: the decoded frame.  The C `data` member is a pointer
to the payload inside the caller's buffer; the model stores the payload bytes
it points at (`len` bytes starting at offset 9). -/
structure protocol_frame_t where
  version : Nat
  type : Nat
  seq : Nat
  cmd : Nat
  len : Nat
  data : List Nat
  crc : Nat
deriving DecidableEq

/-- A frame struct whose fields are all zero / empty, used as the
caller-supplied `protocol_frame_t` before `parse_frame` writes into it. -/
def empty_frame : protocol_frame_t :=
  { version := 0, type := 0, seq := 0, cmd := 0, len := 0, data := [], crc := 0 }

/-! ## Big-endian codec (`float_to_be`, `be_to_float`, `be_to_u16`,
lines 165-191).  `(u >> 24) & 0xFF` is written `u / 2^24 % 256`, and the
bitwise-or of the byte reassembly is written as addition (the operands occupy
disjoint bit ranges when the inputs are bytes, which `uint8_t` guarantees). -/

/-- `float_to_be`: emit the four bytes of the IEEE-754 bit pattern `u`,
most significant byte first.  (The C function reinterprets the `float`
argument as `uint32_t`; the model takes the bit pattern directly.) -/
def float_to_be (u : Nat) : List Nat :=
  [u / 2 ^ 24 % 256, u / 2 ^ 16 % 256, u / 2 ^ 8 % 256, u % 256]

/-- `be_to_float`: reassemble the 32-bit pattern from four bytes,
most significant first.  (The C function returns the `float` with this bit
pattern; the model returns the pattern.) -/
def be_to_float (bytes : List Nat) : Nat :=
  bytes.getD 0 0 * 2 ^ 24 + bytes.getD 1 0 * 2 ^ 16 + bytes.getD 2 0 * 2 ^ 8 +
    bytes.getD 3 0

/-- `be_to_u16`: read a big-endian `uint16_t` at offset `off` of `buf`
(`((uint16_t)in[0] << 8) | in[1]`). -/
def be_to_u16 (buf : List Nat) (off : Nat) : Nat :=
  buf.getD off 0 * 2 ^ 8 + buf.getD (off + 1) 0

/-! ## CRC-16/MODBUS (`crc16_modbus`, lines 206-218) -/

/-- The inner bit loop of `crc16_modbus`: `j` remaining iterations of
`if (crc & 1) crc = (crc >> 1) ^ 0xA001; else crc >>= 1;`. -/
def crc16_shift : Nat → Nat → Nat
  | 0, crc => crc
  | j + 1, crc => crc16_shift j (if crc % 2 = 1 then (crc / 2) ^^^ 0xA001 else crc / 2)

/-- `crc16_modbus`: initial register `0xFFFF`; each byte is XORed into the
register and followed by eight shift rounds. -/
def crc16_modbus (data : List Nat) : Nat :=
  data.foldl (fun crc b => crc16_shift 8 (crc ^^^ b)) 0xFFFF

/-! ## Sequence generator (`_seq_counter`, `next_seq`, lines 223-226).
`return _seq_counter++;` on a `uint8_t` global: the old value is returned and
the stored value wraps modulo 256. -/

/-- `next_seq`: `(value returned, counter value left in `_seq_counter`)`. -/
def next_seq (counter : Nat) : Nat × Nat :=
  (counter, (counter + 1) % 256)

/-! ## Frame encoder (`build_frame`, lines 238-263) -/

/-- `memcpy(&buf[off], data, len)`: copy `data` into `buf` starting at
offset `off`, one byte-store at a time. -/
def memcpy : List Nat → Nat → List Nat → List Nat
  | buf, _, [] => buf
  | buf, off, d :: ds => memcpy (buf.set off d) (off + 1) ds

/-- `build_frame(buf, type, seq, cmd, data, data_len)`: write the header at
offsets 0-8, copy the payload at offset 9, append the CRC over
`&buf[OFFSET_VER]` for `7 + data_len` bytes, and return
`FRAME_HEADER_SIZE + data_len + FRAME_CRC_SIZE`.  The C `data == NULL` guard
corresponds to the empty list.  The result is the buffer after all stores,
paired with the returned length. -/
def build_frame (buf : List Nat) (type seq cmd : Nat) (data : List Nat) :
    List Nat × Int :=
  let buf := buf.set 0 FRAME_SYNC1
  let buf := buf.set 1 FRAME_SYNC2
  let buf := buf.set 2 FRAME_VERSION
  let buf := buf.set 3 type
  let buf := buf.set 4 seq
  let buf := buf.set 5 (cmd / 2 ^ 8 % 256)
  let buf := buf.set 6 (cmd % 256)
  let buf := buf.set 7 (data.length / 2 ^ 8 % 256)
  let buf := buf.set 8 (data.length % 256)
  let buf := if 0 < data.length then memcpy buf 9 data else buf
  let crc := crc16_modbus ((buf.drop 2).take (7 + data.length))
  let buf := buf.set (9 + data.length) (crc / 2 ^ 8 % 256)
  let buf := buf.set (9 + data.length + 1) (crc % 256)
  (buf, (9 : Int) + data.length + 2)

/-- The nine header bytes a frame starts with: sync markers, version, type,
seq, big-endian command code, big-endian payload length.  This is the byte
image `build_frame` leaves at offsets 0-8 (see `build_frame_eq`). -/
def frame_header (type seq cmd len : Nat) : List Nat :=
  [0xAA, 0x55, 0x10, type, seq, cmd / 2 ^ 8 % 256, cmd % 256,
   len / 2 ^ 8 % 256, len % 256]

/-- The checksum `build_frame` appends: `crc16_modbus` over the `7 + len`
bytes from the version byte through the last payload byte. -/
def frame_crc (type seq cmd : Nat) (data : List Nat) : Nat :=
  crc16_modbus ((frame_header type seq cmd data.length ++ data).drop 2)

/-- The complete wire image `build_frame` leaves in the first `9 + len + 2`
bytes of a sufficiently large buffer (see `build_frame_eq`). -/
def frame_bytes (type seq cmd : Nat) (data : List Nat) : List Nat :=
  frame_header type seq cmd data.length ++ data ++
    [frame_crc type seq cmd data / 2 ^ 8 % 256, frame_crc type seq cmd data % 256]

/-- `build_request`: obtains the sequence number from `next_seq` and builds a
`TYPE_REQUEST` frame.  First component: the `build_frame` result; second:
the counter value left in `_seq_counter`. -/
def build_request (counter : Nat) (buf : List Nat) (cmd : Nat) (data : List Nat) :
    (List Nat × Int) × Nat :=
  let r := next_seq counter
  (build_frame buf TYPE_REQUEST r.1 cmd data, r.2)

/-- `build_ack`: a `TYPE_ACK` frame with the caller-supplied `seq` and no
payload (`NULL, 0`).  The global counter is visible but untouched. -/
def build_ack (counter : Nat) (buf : List Nat) (seq cmd : Nat) :
    (List Nat × Int) × Nat :=
  (build_frame buf TYPE_ACK seq cmd [], counter)

/-- `build_response`: a `TYPE_RESPONSE` frame with the caller-supplied `seq`.
The global counter is visible but untouched. -/
def build_response (counter : Nat) (buf : List Nat) (seq cmd : Nat)
    (data : List Nat) : (List Nat × Int) × Nat :=
  (build_frame buf TYPE_RESPONSE seq cmd data, counter)

/-- `build_nack`: a `TYPE_NACK` frame whose payload is the single error-code
byte.  The global counter is visible but untouched. -/
def build_nack (counter : Nat) (buf : List Nat) (seq cmd error_code : Nat) :
    (List Nat × Int) × Nat :=
  (build_frame buf TYPE_NACK seq cmd [error_code], counter)

/-- `build_motor_rotate` (lines 290-297): payload is the motor id followed by
the big-endian IEEE-754 bytes of `angle` and `velocity` (given by their bit
patterns), delegated to `build_request` with `CMD_MOTOR_ROTATE`. -/
def build_motor_rotate (counter : Nat) (buf : List Nat)
    (motor_id angleBits velocityBits : Nat) : (List Nat × Int) × Nat :=
  build_request counter buf CMD_MOTOR_ROTATE
    (motor_id :: (float_to_be angleBits ++ float_to_be velocityBits))

/-! ## Frame decoder (`check_sync`, `parse_frame`, lines 329-358) -/

/-- `check_sync`: `buf[0] == FRAME_SYNC1 && buf[1] == FRAME_SYNC2`. -/
def check_sync (buf : List Nat) : Bool :=
  buf.getD 0 0 == FRAME_SYNC1 && buf.getD 1 0 == FRAME_SYNC2

/-- `parse_frame(buf, buf_len, frame)`: returns the C return value paired
with the frame struct after the call (the C function mutates `*frame`
field by field; the model threads the struct).  `-1` = too short, `-2` = bad
sync, `-3` = incomplete payload, otherwise the consumed length
`FRAME_HEADER_SIZE + len + FRAME_CRC_SIZE`. -/
def parse_frame (buf : List Nat) (buf_len : Nat) (frame : protocol_frame_t) :
    Int × protocol_frame_t :=
  if buf_len < FRAME_MIN_SIZE then (-1, frame)
  else if ¬ check_sync buf then (-2, frame)
  else
    let frame := { frame with
      version := buf.getD 2 0
      type := buf.getD 3 0
      seq := buf.getD 4 0
      cmd := be_to_u16 buf 5
      len := be_to_u16 buf 7 }
    if buf_len < FRAME_HEADER_SIZE + frame.len + FRAME_CRC_SIZE then (-3, frame)
    else
      ((FRAME_HEADER_SIZE : Int) + frame.len + FRAME_CRC_SIZE,
        { frame with
          data := (buf.drop 9).take frame.len
          crc := be_to_u16 buf (9 + frame.len) })

/-! ## Helper lemmas -/

/-- The CRC bit loop keeps the register within 16 bits. -/
theorem crc16_shift_lt {crc : Nat} (j : Nat) (h : crc < 65536) :
    crc16_shift j crc < 65536 := by
  induction j generalizing crc with
  | zero => simpa [crc16_shift] using h
  | succ j ih =>
    rw [crc16_shift]
    apply ih
    split
    · have h1 : crc / 2 < 2 ^ 16 := by omega
      have h2 : (0xA001 : Nat) < 2 ^ 16 := by norm_num
      simpa using Nat.xor_lt_two_pow h1 h2
    · omega

theorem crc16_foldl_lt (data : List Nat) (init : Nat) (hinit : init < 65536)
    (h : ∀ b ∈ data, b < 65536) :
    data.foldl (fun crc b => crc16_shift 8 (crc ^^^ b)) init < 65536 := by
  induction data generalizing init with
  | nil => simpa using hinit
  | cons b bs ih =>
    simp only [List.foldl]
    refine ih _ ?_ (fun x hx => h x (List.mem_cons_of_mem _ hx))
    apply crc16_shift_lt
    have hb : b < 2 ^ 16 := by have := h b (List.mem_cons_self b bs); omega
    have hinit16 : init < 2 ^ 16 := by omega
    simpa using Nat.xor_lt_two_pow hinit16 hb

/-- The CRC register is a 16-bit value. -/
theorem crc16_modbus_lt (data : List Nat) (h : ∀ b ∈ data, b < 65536) :
    crc16_modbus data < 65536 :=
  crc16_foldl_lt data 0xFFFF (by norm_num) h

/-- `memcpy` into the region starting right after `pre` overwrites the next
`d.length` bytes and keeps everything else. -/
theorem memcpy_eq (d : List Nat) : ∀ pre rest : List Nat, d.length ≤ rest.length →
    memcpy (pre ++ rest) pre.length d = pre ++ d ++ rest.drop d.length := by
  induction d with
  | nil => intro pre rest _; simp [memcpy]
  | cons x ds ih =>
    intro pre rest h
    rcases rest with _ | ⟨r, rs⟩
    · simp at h
    · rw [memcpy]
      have hset : (pre ++ r :: rs).set pre.length x = pre ++ x :: rs := by
        rw [List.set_append_right _ _ (Nat.le_refl _), Nat.sub_self]
        rfl
      rw [hset]
      have h2 : ds.length ≤ rs.length := by simpa using h
      have hrec := ih (pre ++ [x]) rs h2
      simp only [List.length_append, List.length_cons, List.length_nil,
        List.append_assoc, List.cons_append, List.nil_append] at hrec ⊢
      simpa using hrec

/-- `List.set` nine places past an explicit 9-byte prefix. -/
theorem set_cons9 (b0 b1 b2 b3 b4 b5 b6 b7 b8 : Nat) (tl : List Nat) (i v : Nat) :
    (b0 :: b1 :: b2 :: b3 :: b4 :: b5 :: b6 :: b7 :: b8 :: tl).set (i + 9) v =
      b0 :: b1 :: b2 :: b3 :: b4 :: b5 :: b6 :: b7 :: b8 :: tl.set i v := rfl

/-- `List.drop` nine places past an explicit 9-byte prefix. -/
theorem drop_cons9 (b0 b1 b2 b3 b4 b5 b6 b7 b8 : Nat) (tl : List Nat) (i : Nat) :
    (b0 :: b1 :: b2 :: b3 :: b4 :: b5 :: b6 :: b7 :: b8 :: tl).drop (i + 9) =
      tl.drop i := rfl

/-- Taking the `7 + len`-byte checksum range after dropping the sync bytes. -/
theorem take_seven_append (a1 a2 a3 a4 a5 a6 a7 : Nat) (d r : List Nat) :
    (a1 :: a2 :: a3 :: a4 :: a5 :: a6 :: a7 :: (d ++ r)).take (7 + d.length) =
      a1 :: a2 :: a3 :: a4 :: a5 :: a6 :: a7 :: d := by
  have hsh : a1 :: a2 :: a3 :: a4 :: a5 :: a6 :: a7 :: (d ++ r) =
      (a1 :: a2 :: a3 :: a4 :: a5 :: a6 :: a7 :: d) ++ r := by simp
  rw [hsh, List.take_left' (by simp; omega)]

/-- Shape of the `build_frame` result on a buffer with enough capacity: the
first `9 + len + 2` bytes are the wire image `frame_bytes`, the bytes beyond
them are the caller's original ones, and the return value is `9 + len + 2`. -/
theorem build_frame_eq (buf : List Nat) (t s c : Nat) (d : List Nat)
    (h : 11 + d.length ≤ buf.length) :
    build_frame buf t s c d =
      (frame_bytes t s c d ++ buf.drop (11 + d.length), (9 : Int) + d.length + 2) := by
  rcases buf with _ | ⟨b0, _ | ⟨b1, _ | ⟨b2, _ | ⟨b3, _ | ⟨b4, _ | ⟨b5, _ | ⟨b6, _ |
    ⟨b7, _ | ⟨b8, rest⟩⟩⟩⟩⟩⟩⟩⟩⟩ <;>
      simp only [List.length_cons, List.length_nil] at h <;> try (exfalso; omega)
  have hrest : 2 + d.length ≤ rest.length := by omega
  rcases hx : rest.drop d.length with _ | ⟨x0, _ | ⟨x1, r2⟩⟩
  · exfalso
    have hl := congrArg List.length hx
    simp [List.length_drop] at hl
    omega
  · exfalso
    have hl := congrArg List.length hx
    simp [List.length_drop] at hl
    omega
  have hmem : (if 0 < d.length
      then memcpy (0xAA :: 0x55 :: 0x10 :: t :: s :: (c / 2 ^ 8 % 256) :: (c % 256) ::
        (d.length / 2 ^ 8 % 256) :: (d.length % 256) :: rest) 9 d
      else 0xAA :: 0x55 :: 0x10 :: t :: s :: (c / 2 ^ 8 % 256) :: (c % 256) ::
        (d.length / 2 ^ 8 % 256) :: (d.length % 256) :: rest) =
      0xAA :: 0x55 :: 0x10 :: t :: s :: (c / 2 ^ 8 % 256) :: (c % 256) ::
        (d.length / 2 ^ 8 % 256) :: (d.length % 256) :: (d ++ rest.drop d.length) := by
    split
    · have hm := memcpy_eq d [0xAA, 0x55, 0x10, t, s, c / 2 ^ 8 % 256, c % 256,
        d.length / 2 ^ 8 % 256, d.length % 256] rest (by omega)
      simpa using hm
    · have hd0 : d = [] := by
        have : d.length = 0 := by omega
        exact List.length_eq_zero.mp this
      subst hd0
      simp
  simp only [build_frame, List.set, FRAME_SYNC1, FRAME_SYNC2, FRAME_VERSION]
  rw [hmem]
  have hcrc : crc16_modbus (List.take (7 + d.length) (List.drop 2
      ((0xAA : Nat) :: (0x55 : Nat) :: (0x10 : Nat) :: t :: s :: (c / 2 ^ 8 % 256) ::
        (c % 256) :: (d.length / 2 ^ 8 % 256) :: (d.length % 256) ::
        (d ++ rest.drop d.length)))) = frame_crc t s c d := by
    rw [show List.drop 2 ((0xAA : Nat) :: (0x55 : Nat) :: (0x10 : Nat) :: t :: s ::
        (c / 2 ^ 8 % 256) :: (c % 256) :: (d.length / 2 ^ 8 % 256) ::
        (d.length % 256) :: (d ++ rest.drop d.length)) =
        (0x10 : Nat) :: t :: s :: (c / 2 ^ 8 % 256) :: (c % 256) ::
        (d.length / 2 ^ 8 % 256) :: (d.length % 256) :: (d ++ rest.drop d.length)
      from rfl]
    rw [take_seven_append]
    simp [frame_crc, frame_header]
  rw [hcrc]
  rw [show 9 + d.length = d.length + 9 from by omega]
  rw [show d.length + 9 + 1 = d.length + 1 + 9 from by omega]
  rw [set_cons9, set_cons9, hx]
  have hs1 : (d ++ x0 :: x1 :: r2).set d.length (frame_crc t s c d / 2 ^ 8 % 256) =
      d ++ (frame_crc t s c d / 2 ^ 8 % 256) :: x1 :: r2 := by
    rw [List.set_append_right _ _ (Nat.le_refl _), Nat.sub_self]
    rfl
  rw [hs1]
  have hs2 : (d ++ (frame_crc t s c d / 2 ^ 8 % 256) :: x1 :: r2).set (d.length + 1)
      (frame_crc t s c d % 256) =
      d ++ (frame_crc t s c d / 2 ^ 8 % 256) :: (frame_crc t s c d % 256) :: r2 := by
    rw [List.set_append_right _ _ (by omega)]
    rw [show d.length + 1 - d.length = 1 from by omega]
    rfl
  rw [hs2]
  rw [show 11 + d.length = d.length + 2 + 9 from by omega, drop_cons9]
  rw [← List.drop_drop, hx]
  rw [show List.drop 2 (x0 :: x1 :: r2) = r2 from rfl]
  simp [frame_bytes, frame_header]

/-- `List.getD` nine places past an explicit 9-byte prefix. -/
theorem getD_cons9 (b0 b1 b2 b3 b4 b5 b6 b7 b8 : Nat) (tl : List Nat) (i dflt : Nat) :
    (b0 :: b1 :: b2 :: b3 :: b4 :: b5 :: b6 :: b7 :: b8 :: tl).getD (i + 9) dflt =
      tl.getD i dflt := rfl

theorem parse_frame_bytes_eq (t s c : Nat) (d junk : List Nat) (f : protocol_frame_t)
    (hc : c < 65536) (hn : d.length < 65536) :
    parse_frame (frame_bytes t s c d ++ junk) (9 + d.length + 2) f =
      ((9 : Int) + d.length + 2,
       { f with
         version := 0x10
         type := t
         seq := s
         cmd := c
         len := d.length
         data := d
         crc := frame_crc t s c d / 2 ^ 8 % 256 * 2 ^ 8 + frame_crc t s c d % 256 }) := by
  have hb : frame_bytes t s c d ++ junk =
      (0xAA : Nat) :: 0x55 :: 0x10 :: t :: s :: (c / 2 ^ 8 % 256) :: (c % 256) ::
        (d.length / 2 ^ 8 % 256) :: (d.length % 256) ::
        (d ++ (frame_crc t s c d / 2 ^ 8 % 256) :: (frame_crc t s c d % 256) :: junk) := by
    simp [frame_bytes, frame_header]
  rw [hb]
  simp only [parse_frame]
  have hL : be_to_u16 ((0xAA : Nat) :: 0x55 :: 0x10 :: t :: s :: (c / 2 ^ 8 % 256) ::
      (c % 256) :: (d.length / 2 ^ 8 % 256) :: (d.length % 256) ::
      (d ++ (frame_crc t s c d / 2 ^ 8 % 256) :: (frame_crc t s c d % 256) :: junk)) 7 =
      d.length := by
    simp [be_to_u16]
    omega
  have hC : be_to_u16 ((0xAA : Nat) :: 0x55 :: 0x10 :: t :: s :: (c / 2 ^ 8 % 256) ::
      (c % 256) :: (d.length / 2 ^ 8 % 256) :: (d.length % 256) ::
      (d ++ (frame_crc t s c d / 2 ^ 8 % 256) :: (frame_crc t s c d % 256) :: junk)) 5 =
      c := by
    simp [be_to_u16]
    omega
  have hdata : (((0xAA : Nat) :: 0x55 :: 0x10 :: t :: s :: (c / 2 ^ 8 % 256) ::
      (c % 256) :: (d.length / 2 ^ 8 % 256) :: (d.length % 256) ::
      (d ++ (frame_crc t s c d / 2 ^ 8 % 256) :: (frame_crc t s c d % 256) ::
        junk)).drop 9).take d.length = d := by
    rw [show ((0xAA : Nat) :: 0x55 :: 0x10 :: t :: s :: (c / 2 ^ 8 % 256) ::
      (c % 256) :: (d.length / 2 ^ 8 % 256) :: (d.length % 256) ::
      (d ++ (frame_crc t s c d / 2 ^ 8 % 256) :: (frame_crc t s c d % 256) ::
        junk)).drop 9 = d ++ (frame_crc t s c d / 2 ^ 8 % 256) ::
        (frame_crc t s c d % 256) :: junk from rfl]
    exact List.take_left' rfl
  have hcrcfield : be_to_u16 ((0xAA : Nat) :: 0x55 :: 0x10 :: t :: s ::
      (c / 2 ^ 8 % 256) :: (c % 256) :: (d.length / 2 ^ 8 % 256) :: (d.length % 256) ::
      (d ++ (frame_crc t s c d / 2 ^ 8 % 256) :: (frame_crc t s c d % 256) :: junk))
      (9 + d.length) =
      frame_crc t s c d / 2 ^ 8 % 256 * 2 ^ 8 + frame_crc t s c d % 256 := by
    rw [be_to_u16, show 9 + d.length = d.length + 9 from by omega, getD_cons9]
    rw [show d.length + 9 + 1 = d.length + 1 + 9 from by omega, getD_cons9]
    rw [List.getD_append_right _ _ _ _ (Nat.le_refl _), Nat.sub_self]
    rw [List.getD_append_right _ _ _ _ (by omega : d.length ≤ d.length + 1)]
    rw [show d.length + 1 - d.length = 1 from by omega]
    rfl
  simp only [hL, hC]
  split_ifs with h1 h2 h3
  · exfalso; simp only [FRAME_MIN_SIZE] at h1; omega
  · exfalso; simp only [FRAME_HEADER_SIZE, FRAME_CRC_SIZE] at h3; omega
  · rw [Prod.mk.injEq]
    refine ⟨?_, ?_⟩
    · simp only [FRAME_HEADER_SIZE, FRAME_CRC_SIZE]; omega
    · rw [protocol_frame_t.mk.injEq]
      exact ⟨rfl, rfl, rfl, rfl, rfl, hdata, hcrcfield⟩
  · exact absurd rfl h2

theorem frame_bytes_length (t s c : Nat) (d : List Nat) :
    (frame_bytes t s c d).length = 9 + d.length + 2 := by
  simp [frame_bytes, frame_header]
  omega

theorem frame_bytes_header_getD (t s c : Nat) (d junk : List Nat) (i : Nat)
    (hi : i < 9) :
    (frame_bytes t s c d ++ junk).getD i 0 =
      (frame_header t s c d.length).getD i 0 := by
  have hshape : frame_bytes t s c d ++ junk =
      frame_header t s c d.length ++ (d ++
        [frame_crc t s c d / 2 ^ 8 % 256, frame_crc t s c d % 256] ++ junk) := by
    simp [frame_bytes, List.append_assoc]
  rw [hshape, List.getD_append]
  simp [frame_header]
  omega

theorem frame_bytes_payload (t s c : Nat) (d junk : List Nat) :
    ((frame_bytes t s c d ++ junk).drop 9).take d.length = d := by
  have hshape : frame_bytes t s c d ++ junk =
      frame_header t s c d.length ++ (d ++
        ((frame_crc t s c d / 2 ^ 8 % 256) :: (frame_crc t s c d % 256) :: junk)) := by
    simp [frame_bytes, List.append_assoc]
  rw [hshape]
  rw [List.drop_left' (by simp [frame_header])]
  exact List.take_left' rfl

theorem frame_bytes_crc_range (t s c : Nat) (d : List Nat) :
    ((frame_bytes t s c d).drop 2).take (7 + d.length) =
      (frame_header t s c d.length ++ d).drop 2 := by
  simp only [frame_bytes, frame_header, List.cons_append, List.nil_append,
    List.append_assoc]
  rw [show List.drop 2 ((0xAA : Nat) :: 0x55 :: 0x10 :: t :: s :: (c / 2 ^ 8 % 256) ::
      (c % 256) :: (d.length / 2 ^ 8 % 256) :: (d.length % 256) ::
      (d ++ [frame_crc t s c d / 2 ^ 8 % 256, frame_crc t s c d % 256])) =
      (0x10 : Nat) :: t :: s :: (c / 2 ^ 8 % 256) :: (c % 256) ::
      (d.length / 2 ^ 8 % 256) :: (d.length % 256) ::
      (d ++ [frame_crc t s c d / 2 ^ 8 % 256, frame_crc t s c d % 256]) from rfl]
  rw [take_seven_append]
  rfl

theorem frame_crc_lt (t s c : Nat) (d : List Nat) (ht : t < 256) (hs : s < 256)
    (hd : ∀ b ∈ d, b < 256) : frame_crc t s c d < 65536 := by
  apply crc16_modbus_lt
  intro b hb
  simp [frame_header] at hb
  rcases hb with h | h | h | h | h | h | h | h
  · omega
  · omega
  · omega
  · omega
  · omega
  · omega
  · omega
  · have := hd b h
    omega

/-! ## Claim theorems -/

set_option maxRecDepth 8192 in
/-- C5: `crc16_modbus` of the empty byte range is the initial register value
0xFFFF, and of the nine ASCII bytes of "123456789" it is the standard
CRC-16/MODBUS check value 0x4B37. -/
theorem C5_crc_reference_values :
    crc16_modbus [] = 0xFFFF ∧
    crc16_modbus [0x31, 0x32, 0x33, 0x34, 0x35, 0x36, 0x37, 0x38, 0x39] = 0x4B37 :=
  ⟨rfl, by decide⟩

/-- C2 counterexample: calling `build_frame` with a 5-byte output buffer —
too small for the 9 + 0 + 2 = 11 frame bytes — does not fail with a capacity
error; it returns the total frame length 11. -/
theorem C2_counterexample :
    (List.replicate 5 0).length < 9 + 0 + 2 ∧
    (build_frame (List.replicate 5 0) 0 0 0 []).2 = 9 + 0 + 2 :=
  ⟨by decide, by decide⟩

/-- C2 amended: `build_frame` performs no capacity check and has no failure
path at all: for every caller-supplied buffer, too small or not, it returns
the total frame length `9 + data_len + 2`.  A too-small buffer is undefined
behaviour (an out-of-bounds write), not a reported error. -/
theorem C2_no_capacity_error (buf : List Nat) (t s c : Nat) (d : List Nat) :
    (build_frame buf t s c d).2 = (9 : Int) + d.length + 2 := rfl

/-- C9: the big-endian float codec round-trips every 32-bit IEEE-754 bit
pattern bit-exactly (NaN and subnormal patterns included, since the claim
quantifies over all 32-bit values), and the encoding lays the bytes out most
significant first. -/
theorem C9_float_roundtrip (u : Nat) (hu : u < 2 ^ 32) :
    be_to_float (float_to_be u) = u ∧
    float_to_be u = [u / 2 ^ 24 % 256, u / 2 ^ 16 % 256, u / 2 ^ 8 % 256, u % 256] := by
  refine ⟨?_, rfl⟩
  show u / 2 ^ 24 % 256 * 2 ^ 24 + u / 2 ^ 16 % 256 * 2 ^ 16 +
    u / 2 ^ 8 % 256 * 2 ^ 8 + u % 256 = u
  omega

/-- C9 witness: instance at the quiet-NaN bit pattern 0x7FC00001. -/
theorem C9_float_roundtrip_witness :
    0x7FC00001 < 2 ^ 32 ∧ be_to_float (float_to_be 0x7FC00001) = 0x7FC00001 :=
  ⟨by norm_num, (C9_float_roundtrip 0x7FC00001 (by norm_num)).1⟩

/-- C1 counterexample: the claimed round-trip fails for a payload of length
65525 (within the claimed bound 65535).  The encoder produces a frame of
total length 9 + 65525 + 2 = 65536, which does not fit `parse_frame`'s
`uint16_t buf_len` parameter: the length truncates to 65536 % 65536 = 0 and
the decoder reports `TooShort` (-1) instead of returning the frame. -/
theorem C1_counterexample :
    (build_frame (List.replicate 65536 0) 0 0 0x3001 (List.replicate 65525 0)).2 =
      9 + 65525 + 2 ∧
    (9 + 65525 + 2) % 65536 = 0 ∧
    (parse_frame (build_frame (List.replicate 65536 0) 0 0 0x3001
        (List.replicate 65525 0)).1 ((9 + 65525 + 2) % 65536) empty_frame).1 = -1 := by
  refine ⟨?_, by norm_num, ?_⟩
  · show (9 : Int) + (List.replicate 65525 (0 : Nat)).length + 2 = 9 + 65525 + 2
    rw [List.length_replicate]
    norm_num
  · rfl

/-- C1 amended: the encode/decode round-trip holds for payloads of length at
most 65524 — exactly those for which the total frame length `9 + len + 2`
still fits the decoder's `uint16_t buf_len` parameter.  Decoding the
encoder's output at its reported length yields the identical type, seq, cmd
and payload bytes and consumes `9 + len + 2` bytes. -/
theorem C1_roundtrip (buf : List Nat) (t s c : Nat) (d : List Nat)
    (f : protocol_frame_t) (hbuf : 11 + d.length ≤ buf.length) (ht : t < 256)
    (hs : s < 256) (hc : c < 65536) (hd : d.length ≤ 65524) :
    (parse_frame (build_frame buf t s c d).1 (9 + d.length + 2) f).1 =
      (9 : Int) + d.length + 2 ∧
    (parse_frame (build_frame buf t s c d).1 (9 + d.length + 2) f).2.type = t ∧
    (parse_frame (build_frame buf t s c d).1 (9 + d.length + 2) f).2.seq = s ∧
    (parse_frame (build_frame buf t s c d).1 (9 + d.length + 2) f).2.cmd = c ∧
    (parse_frame (build_frame buf t s c d).1 (9 + d.length + 2) f).2.data = d := by
  rw [build_frame_eq buf t s c d hbuf]
  rw [parse_frame_bytes_eq t s c d _ f hc (by omega)]
  exact ⟨rfl, rfl, rfl, rfl, rfl⟩

/-- C1 witness: round-trip instance for a concrete 3-byte payload. -/
theorem C1_roundtrip_witness :
    (parse_frame (build_frame (List.replicate 20 7) 3 5 0x3001 [1, 2, 3]).1
        (9 + 3 + 2) empty_frame).1 = (9 : Int) + 3 + 2 ∧
    (parse_frame (build_frame (List.replicate 20 7) 3 5 0x3001 [1, 2, 3]).1
        (9 + 3 + 2) empty_frame).2.cmd = 0x3001 ∧
    (parse_frame (build_frame (List.replicate 20 7) 3 5 0x3001 [1, 2, 3]).1
        (9 + 3 + 2) empty_frame).2.data = [1, 2, 3] := by
  have h := C1_roundtrip (List.replicate 20 7) 3 5 0x3001 [1, 2, 3] empty_frame
    (by simp) (by norm_num) (by norm_num) (by norm_num) (by simp)
  exact ⟨by simpa using h.1, h.2.2.2.1, h.2.2.2.2⟩

/-- C3: `parse_frame`'s checks fire in exactly the documented order:
`-1` (TooShort) iff `buf_len < 11`; otherwise `-2` (BadSync) iff the first
two bytes are not 0xAA 0x55; otherwise `-3` (Incomplete) iff
`buf_len < 9 + len + 2` where `len` is the declared length field at offsets
7-8; otherwise success, returning the consumed length `9 + len + 2`. -/
theorem C3_failfast_order (buf : List Nat) (buf_len : Nat) (f : protocol_frame_t)
    (hlen16 : buf_len ≤ 65535) :
    ((parse_frame buf buf_len f).1 = -1 ↔ buf_len < 11) ∧
    (¬ buf_len < 11 →
      ((parse_frame buf buf_len f).1 = -2 ↔ ¬ check_sync buf = true)) ∧
    (¬ buf_len < 11 → check_sync buf = true →
      ((parse_frame buf buf_len f).1 = -3 ↔ buf_len < 9 + be_to_u16 buf 7 + 2)) ∧
    (¬ buf_len < 11 → check_sync buf = true → ¬ buf_len < 9 + be_to_u16 buf 7 + 2 →
      (parse_frame buf buf_len f).1 = (9 : Int) + be_to_u16 buf 7 + 2) := by
  simp only [parse_frame, FRAME_MIN_SIZE, FRAME_HEADER_SIZE, FRAME_CRC_SIZE]
  split_ifs with h1 h2 h3
  · refine ⟨iff_of_true rfl h1, ?_, ?_, ?_⟩
    · exact fun hn => absurd h1 hn
    · exact fun hn _ => absurd h1 hn
    · exact fun hn _ _ => absurd h1 hn
  · refine ⟨iff_of_false (by simp) h1, ?_, ?_, ?_⟩
    · exact fun _ => iff_of_false (by simp) (not_not_intro h2)
    · exact fun _ _ => iff_of_true rfl h3
    · exact fun _ _ hn => absurd h3 hn
  · refine ⟨iff_of_false (by simp; omega) h1, ?_, ?_, ?_⟩
    · exact fun _ => iff_of_false (by simp; omega) (not_not_intro h2)
    · exact fun _ _ => iff_of_false (by simp; omega) h3
    · exact fun _ _ _ => by simp
  · refine ⟨iff_of_false (by simp) h1, ?_, ?_, ?_⟩
    · exact fun _ => iff_of_true rfl h2
    · exact fun _ hsync => absurd hsync h2
    · exact fun _ hsync _ => absurd hsync h2

/-- C3 witness: instance on a complete well-formed 11-byte buffer (len = 0),
where all three error tests are passed and the consumed length is 11. -/
theorem C3_failfast_order_witness :
    ((parse_frame [0xAA, 0x55, 0x10, 0, 0, 0x30, 1, 0, 0, 0xBE, 0xEF] 11
        empty_frame).1 = -1 ↔ (11 : Nat) < 11) ∧
    (¬ (11 : Nat) < 11 →
      ((parse_frame [0xAA, 0x55, 0x10, 0, 0, 0x30, 1, 0, 0, 0xBE, 0xEF] 11
        empty_frame).1 = -2 ↔
        ¬ check_sync [0xAA, 0x55, 0x10, 0, 0, 0x30, 1, 0, 0, 0xBE, 0xEF] = true)) ∧
    (¬ (11 : Nat) < 11 →
      check_sync [0xAA, 0x55, 0x10, 0, 0, 0x30, 1, 0, 0, 0xBE, 0xEF] = true →
      ((parse_frame [0xAA, 0x55, 0x10, 0, 0, 0x30, 1, 0, 0, 0xBE, 0xEF] 11
        empty_frame).1 = -3 ↔
        (11 : Nat) < 9 + be_to_u16 [0xAA, 0x55, 0x10, 0, 0, 0x30, 1, 0, 0, 0xBE, 0xEF] 7 + 2)) ∧
    (¬ (11 : Nat) < 11 →
      check_sync [0xAA, 0x55, 0x10, 0, 0, 0x30, 1, 0, 0, 0xBE, 0xEF] = true →
      ¬ (11 : Nat) < 9 + be_to_u16 [0xAA, 0x55, 0x10, 0, 0, 0x30, 1, 0, 0, 0xBE, 0xEF] 7 + 2 →
      (parse_frame [0xAA, 0x55, 0x10, 0, 0, 0x30, 1, 0, 0, 0xBE, 0xEF] 11
        empty_frame).1 =
        (9 : Int) + be_to_u16 [0xAA, 0x55, 0x10, 0, 0, 0x30, 1, 0, 0, 0xBE, 0xEF] 7 + 2) :=
  C3_failfast_order [0xAA, 0x55, 0x10, 0, 0, 0x30, 1, 0, 0, 0xBE, 0xEF] 11
    empty_frame (by norm_num)

/-- C6: the decoder does no semantic validation.  Whenever the three
structural checks pass, `parse_frame` succeeds — no hypothesis constrains
the version byte or requires the trailing checksum to match the contents —
and the checksum bytes are extracted verbatim into the `crc` field, never
compared. -/
theorem C6_no_semantic_validation (buf : List Nat) (buf_len : Nat)
    (f : protocol_frame_t) (hlen16 : buf_len ≤ 65535) (h1 : ¬ buf_len < 11)
    (h2 : check_sync buf = true) (h3 : ¬ buf_len < 9 + be_to_u16 buf 7 + 2) :
    (parse_frame buf buf_len f).1 = (9 : Int) + be_to_u16 buf 7 + 2 ∧
    (parse_frame buf buf_len f).2.version = buf.getD 2 0 ∧
    (parse_frame buf buf_len f).2.crc = be_to_u16 buf (9 + be_to_u16 buf 7) := by
  simp only [parse_frame, FRAME_MIN_SIZE, FRAME_HEADER_SIZE, FRAME_CRC_SIZE]
  split_ifs
  exact ⟨by simp, rfl, rfl⟩

/-- C6 witness: an 11-byte buffer with a wrong version byte (0xFF, not 0x10)
and a checksum that does not match its contents still decodes successfully,
and the mismatched checksum is stored in the `crc` field. -/
theorem C6_no_semantic_validation_witness :
    (parse_frame [0xAA, 0x55, 0xFF, 0, 0, 0x30, 1, 0, 0, 0xDE, 0xAD] 11
        empty_frame).1 =
      (9 : Int) + be_to_u16 [0xAA, 0x55, 0xFF, 0, 0, 0x30, 1, 0, 0, 0xDE, 0xAD] 7 + 2 ∧
    (parse_frame [0xAA, 0x55, 0xFF, 0, 0, 0x30, 1, 0, 0, 0xDE, 0xAD] 11
        empty_frame).2.version =
      [0xAA, 0x55, 0xFF, 0, 0, 0x30, 1, 0, 0, 0xDE, 0xAD].getD 2 0 ∧
    (parse_frame [0xAA, 0x55, 0xFF, 0, 0, 0x30, 1, 0, 0, 0xDE, 0xAD] 11
        empty_frame).2.crc =
      be_to_u16 [0xAA, 0x55, 0xFF, 0, 0, 0x30, 1, 0, 0, 0xDE, 0xAD]
        (9 + be_to_u16 [0xAA, 0x55, 0xFF, 0, 0, 0x30, 1, 0, 0, 0xDE, 0xAD] 7) :=
  C6_no_semantic_validation [0xAA, 0x55, 0xFF, 0, 0, 0x30, 1, 0, 0, 0xDE, 0xAD] 11
    empty_frame (by norm_num) (by norm_num) (by decide) (by decide)

/-- C10: `parse_frame`'s writes to the caller's frame struct are not atomic.
On `-1` (TooShort) and `-2` (BadSync) the struct is returned unmodified; on
`-3` (Incomplete) the version, type, seq, cmd and len fields have already
been overwritten with values read from the buffer while `data` and `crc`
keep their previous values. -/
theorem C10_partial_mutation (buf : List Nat) (buf_len : Nat)
    (f : protocol_frame_t) (hlen16 : buf_len ≤ 65535) :
    (((parse_frame buf buf_len f).1 = -1 ∨ (parse_frame buf buf_len f).1 = -2) →
      (parse_frame buf buf_len f).2 = f) ∧
    ((parse_frame buf buf_len f).1 = -3 →
      (parse_frame buf buf_len f).2 = { f with
        version := buf.getD 2 0
        type := buf.getD 3 0
        seq := buf.getD 4 0
        cmd := be_to_u16 buf 5
        len := be_to_u16 buf 7 }) := by
  simp only [parse_frame, FRAME_MIN_SIZE, FRAME_HEADER_SIZE, FRAME_CRC_SIZE]
  split_ifs with h1 h2 h3
  · refine ⟨fun _ => rfl, fun hr => absurd hr (by simp)⟩
  · refine ⟨fun hr => ?_, fun _ => rfl⟩
    rcases hr with hr | hr <;> exact absurd hr (by simp)
  · refine ⟨fun hr => ?_, fun hr => ?_⟩
    · rcases hr with hr | hr <;> simp at hr <;> omega
    · simp at hr
      omega
  · refine ⟨fun _ => rfl, fun hr => absurd hr (by simp)⟩

/-- C10 witness: instance on a buffer whose declared len (5) exceeds the
available bytes — `parse_frame` returns `-3` and the header fields are
already overwritten while `data`/`crc` are untouched. -/
theorem C10_partial_mutation_witness :
    (((parse_frame [0xAA, 0x55, 0x10, 2, 3, 0x30, 1, 0, 5, 0, 0] 11
        empty_frame).1 = -1 ∨
      (parse_frame [0xAA, 0x55, 0x10, 2, 3, 0x30, 1, 0, 5, 0, 0] 11
        empty_frame).1 = -2) →
      (parse_frame [0xAA, 0x55, 0x10, 2, 3, 0x30, 1, 0, 5, 0, 0] 11
        empty_frame).2 = empty_frame) ∧
    ((parse_frame [0xAA, 0x55, 0x10, 2, 3, 0x30, 1, 0, 5, 0, 0] 11
        empty_frame).1 = -3 →
      (parse_frame [0xAA, 0x55, 0x10, 2, 3, 0x30, 1, 0, 5, 0, 0] 11
        empty_frame).2 = { empty_frame with
        version := [0xAA, 0x55, 0x10, 2, 3, 0x30, 1, 0, 5, 0, 0].getD 2 0
        type := [0xAA, 0x55, 0x10, 2, 3, 0x30, 1, 0, 5, 0, 0].getD 3 0
        seq := [0xAA, 0x55, 0x10, 2, 3, 0x30, 1, 0, 5, 0, 0].getD 4 0
        cmd := be_to_u16 [0xAA, 0x55, 0x10, 2, 3, 0x30, 1, 0, 5, 0, 0] 5
        len := be_to_u16 [0xAA, 0x55, 0x10, 2, 3, 0x30, 1, 0, 5, 0, 0] 7 }) :=
  C10_partial_mutation [0xAA, 0x55, 0x10, 2, 3, 0x30, 1, 0, 5, 0, 0] 11
    empty_frame (by norm_num)

theorem frame_bytes_drop_crc (t s c : Nat) (d : List Nat) (ht : t < 256)
    (hs : s < 256) (hd : ∀ b ∈ d, b < 256) :
    (frame_bytes t s c d).drop (9 + d.length) =
      [crc16_modbus (((frame_bytes t s c d).drop 2).take (7 + d.length)) / 256,
       crc16_modbus (((frame_bytes t s c d).drop 2).take (7 + d.length)) % 256] := by
  rw [frame_bytes_crc_range]
  have hlt : frame_crc t s c d < 65536 := frame_crc_lt t s c d ht hs hd
  have h1 : crc16_modbus ((frame_header t s c d.length ++ d).drop 2) =
      frame_crc t s c d := rfl
  rw [h1]
  have hdrop : (frame_bytes t s c d).drop (9 + d.length) =
      [frame_crc t s c d / 2 ^ 8 % 256, frame_crc t s c d % 256] := by
    simp only [frame_bytes]
    exact List.drop_left' (by simp [frame_header]; omega)
  rw [hdrop]
  have e8 : (2 : Nat) ^ 8 = 256 := by norm_num
  rw [e8]
  have hhi : frame_crc t s c d / 256 % 256 = frame_crc t s c d / 256 := by omega
  rw [hhi]

/-- C8: `next_seq` returns the counter's current value and leaves the counter
incremented modulo 256, so consecutive calls return consecutive values and a
call returning 255 is followed by one returning 0.  `build_request` consumes
exactly one sequence value per call: its frame carries the counter value in
the seq byte (offset 4) and the counter advances once.  `build_ack`,
`build_response` and `build_nack` leave the counter untouched and put the
caller-supplied seq in the frame. -/
theorem C8_sequence_semantics (s s2 q c e : Nat) (buf : List Nat) (d : List Nat)
    (hs : s < 256) (hbuf : 11 + d.length ≤ buf.length) (hb1 : 12 ≤ buf.length) :
    (next_seq s).1 = s ∧
    (next_seq (next_seq s).2).1 = (s + 1) % 256 ∧
    (next_seq 255).1 = 255 ∧
    (next_seq (next_seq 255).2).1 = 0 ∧
    (build_request s buf c d).2 = (s + 1) % 256 ∧
    (build_request s buf c d).1.1.getD 4 0 = s ∧
    (build_ack s2 buf q c).2 = s2 ∧
    (build_ack s2 buf q c).1.1.getD 4 0 = q ∧
    (build_response s2 buf q c d).2 = s2 ∧
    (build_response s2 buf q c d).1.1.getD 4 0 = q ∧
    (build_nack s2 buf q c e).2 = s2 ∧
    (build_nack s2 buf q c e).1.1.getD 4 0 = q := by
  refine ⟨rfl, rfl, rfl, rfl, rfl, ?_, rfl, ?_, rfl, ?_, rfl, ?_⟩
  · simp only [build_request, next_seq, TYPE_REQUEST]
    rw [build_frame_eq buf 0 s c d hbuf]
    rw [frame_bytes_header_getD 0 s c d _ 4 (by norm_num)]
    rfl
  · simp only [build_ack, TYPE_ACK]
    rw [build_frame_eq buf 3 q c [] (by simp; omega)]
    rw [frame_bytes_header_getD 3 q c [] _ 4 (by norm_num)]
    rfl
  · simp only [build_response, TYPE_RESPONSE]
    rw [build_frame_eq buf 1 q c d hbuf]
    rw [frame_bytes_header_getD 1 q c d _ 4 (by norm_num)]
    rfl
  · simp only [build_nack, TYPE_NACK]
    rw [build_frame_eq buf 4 q c [e] (by simp; omega)]
    rw [frame_bytes_header_getD 4 q c [e] _ 4 (by norm_num)]
    rfl

/-- C8 witness: instance at counter value 255 (the wrap point), with concrete
ack/response/nack sequence number 9 and a 2-byte payload. -/
theorem C8_sequence_semantics_witness :
    (next_seq 255).1 = 255 ∧
    (next_seq (next_seq 255).2).1 = (255 + 1) % 256 ∧
    (next_seq 255).1 = 255 ∧
    (next_seq (next_seq 255).2).1 = 0 ∧
    (build_request 255 (List.replicate 30 0) 0x3001 [1, 2]).2 = (255 + 1) % 256 ∧
    (build_request 255 (List.replicate 30 0) 0x3001 [1, 2]).1.1.getD 4 0 = 255 ∧
    (build_ack 7 (List.replicate 30 0) 9 0x3001).2 = 7 ∧
    (build_ack 7 (List.replicate 30 0) 9 0x3001).1.1.getD 4 0 = 9 ∧
    (build_response 7 (List.replicate 30 0) 9 0x3001 [1, 2]).2 = 7 ∧
    (build_response 7 (List.replicate 30 0) 9 0x3001 [1, 2]).1.1.getD 4 0 = 9 ∧
    (build_nack 7 (List.replicate 30 0) 9 0x3001 3).2 = 7 ∧
    (build_nack 7 (List.replicate 30 0) 9 0x3001 3).1.1.getD 4 0 = 9 :=
  C8_sequence_semantics 255 7 9 0x3001 3 (List.replicate 30 0) [1, 2]
    (by norm_num) (by simp) (by simp)

/-- C7: the motor-rotate scenario.  `build_motor_rotate` for motor 0x01 with
angle 90.0 (IEEE-754 bit pattern 0x42B40000) and velocity 10.0 (bit pattern
0x41200000) produces a Request frame (type byte 0x00) with command 0x3001,
the 9-byte payload 01 42 B4 00 00 41 20 00 00, len field 9, total returned
length 20, and trailing two bytes equal to the CRC-16/MODBUS checksum of
bytes [2..18) of the buffer, high byte first. -/
theorem C7_motor_rotate_scenario (s : Nat) (buf : List Nat) (hs : s < 256)
    (hbuf : 20 ≤ buf.length) :
    (build_motor_rotate s buf 0x01 0x42B40000 0x41200000).1.2 = 20 ∧
    (build_motor_rotate s buf 0x01 0x42B40000 0x41200000).1.1.getD 3 0 = 0x00 ∧
    be_to_u16 (build_motor_rotate s buf 0x01 0x42B40000 0x41200000).1.1 5 = 0x3001 ∧
    be_to_u16 (build_motor_rotate s buf 0x01 0x42B40000 0x41200000).1.1 7 = 9 ∧
    ((build_motor_rotate s buf 0x01 0x42B40000 0x41200000).1.1.drop 9).take 9 =
      [0x01, 0x42, 0xB4, 0x00, 0x00, 0x41, 0x20, 0x00, 0x00] ∧
    ((build_motor_rotate s buf 0x01 0x42B40000 0x41200000).1.1.take 20).drop 18 =
      [crc16_modbus ((((build_motor_rotate s buf 0x01 0x42B40000
          0x41200000).1.1.take 20).drop 2).take 16) / 256,
       crc16_modbus ((((build_motor_rotate s buf 0x01 0x42B40000
          0x41200000).1.1.take 20).drop 2).take 16) % 256] := by
  have hpl : (0x01 : Nat) :: (float_to_be 0x42B40000 ++ float_to_be 0x41200000) =
      [1, 0x42, 0xB4, 0, 0, 0x41, 0x20, 0, 0] := by decide
  simp only [build_motor_rotate, build_request, next_seq, CMD_MOTOR_ROTATE,
    TYPE_REQUEST, hpl]
  have hcap : 11 + ([1, 0x42, 0xB4, 0, 0, 0x41, 0x20, 0, 0] : List Nat).length ≤
      buf.length := by simp; omega
  simp only [build_frame_eq buf 0 s 0x3001 _ hcap]
  refine ⟨by decide, ?_, ?_, ?_, ?_, ?_⟩
  · rw [frame_bytes_header_getD 0 s 0x3001 _ _ 3 (by norm_num)]
    rfl
  · rw [be_to_u16, frame_bytes_header_getD 0 s 0x3001 _ _ 5 (by norm_num),
      frame_bytes_header_getD 0 s 0x3001 _ _ 6 (by norm_num)]
    simp [frame_header]
  · rw [be_to_u16, frame_bytes_header_getD 0 s 0x3001 _ _ 7 (by norm_num),
      frame_bytes_header_getD 0 s 0x3001 _ _ 8 (by norm_num)]
    simp [frame_header]
  · have := frame_bytes_payload 0 s 0x3001 [1, 0x42, 0xB4, 0, 0, 0x41, 0x20, 0, 0]
      (buf.drop (11 + ([1, 0x42, 0xB4, 0, 0, 0x41, 0x20, 0, 0] : List Nat).length))
    simpa using this
  · rw [List.take_left' (by rw [frame_bytes_length]; rfl)]
    have := frame_bytes_drop_crc 0 s 0x3001 [1, 0x42, 0xB4, 0, 0, 0x41, 0x20, 0, 0]
      (by norm_num) hs (by decide)
    simpa using this

set_option maxRecDepth 8192 in
/-- C7 witness: instance at counter value 0 with a fresh 20-byte buffer. -/
theorem C7_motor_rotate_scenario_witness :
    (build_motor_rotate 0 (List.replicate 20 0) 0x01 0x42B40000 0x41200000).1.2 = 20 ∧
    (build_motor_rotate 0 (List.replicate 20 0) 0x01 0x42B40000
      0x41200000).1.1.getD 3 0 = 0x00 ∧
    be_to_u16 (build_motor_rotate 0 (List.replicate 20 0) 0x01 0x42B40000
      0x41200000).1.1 5 = 0x3001 ∧
    be_to_u16 (build_motor_rotate 0 (List.replicate 20 0) 0x01 0x42B40000
      0x41200000).1.1 7 = 9 ∧
    ((build_motor_rotate 0 (List.replicate 20 0) 0x01 0x42B40000
      0x41200000).1.1.drop 9).take 9 =
      [0x01, 0x42, 0xB4, 0x00, 0x00, 0x41, 0x20, 0x00, 0x00] ∧
    ((build_motor_rotate 0 (List.replicate 20 0) 0x01 0x42B40000
      0x41200000).1.1.take 20).drop 18 =
      [crc16_modbus ((((build_motor_rotate 0 (List.replicate 20 0) 0x01 0x42B40000
          0x41200000).1.1.take 20).drop 2).take 16) / 256,
       crc16_modbus ((((build_motor_rotate 0 (List.replicate 20 0) 0x01 0x42B40000
          0x41200000).1.1.take 20).drop 2).take 16) % 256] :=
  C7_motor_rotate_scenario 0 (List.replicate 20 0) (by norm_num) (by simp)

end Protocol
